import Mathlib

/-!
Verification of the Gradescope auto-submitter core
(`gradescope_autosubmitter/core.py`): session store, authentication probe,
course/assignment resolution, submission-stage error handling, grade-poll
loop, and the orchestrator's resource-release path, shallowly embedded as
executable Lean definitions.
-/

set_option maxRecDepth 4000

/- ===== String utilities: Python `needle in hay` on strings ===== -/

/-- Does `hay` begin with `needle`? (character-list version). -/
def listStarts : List Char → List Char → Bool
  | [], _ => true
  | x :: xs, y :: ys => x == y && listStarts xs ys
  | _ :: _, [] => false

/-- Python substring containment `needle in hay` on character lists. -/
def hasSubstr : List Char → List Char → Bool
  | needle, [] => needle.isEmpty
  | needle, c :: rest => listStarts needle (c :: rest) || hasSubstr needle rest

/-- Python `needle in hay` for strings (case-sensitive, contiguous). -/
def pyIn (needle hay : String) : Bool :=
  hasSubstr needle.data hay.data

/-- Python `s.lower()` (ASCII case folding, character by character). -/
def pyLower (s : String) : String :=
  ⟨s.data.map Char.toLower⟩

/-- Python `s.strip()`: remove whitespace from both ends. -/
def pyStrip (s : String) : String :=
  ⟨((s.data.dropWhile Char.isWhitespace).reverse.dropWhile Char.isWhitespace).reverse⟩

/-- Python `s.startswith(pre)`. -/
def pyStartsWith (s pre : String) : Bool :=
  listStarts pre.data s.data

/-- Embeds `query.lower() in label.lower()` — the matching rule used for both
course shortnames and assignment labels in `submit_to_gradescope`. -/
def labelMatches (query label : String) : Bool :=
  pyIn (pyLower query) (pyLower label)

/-- Spec-side notion (glossary): string `a` matches query `q` if `q`,
lower-cased, is a contiguous substring of `a` lower-cased — expressed as an
occurrence at some position `i`. -/
def specSubstrCI (q a : String) : Prop :=
  ∃ i, i ≤ (pyLower a).data.length ∧
    ((pyLower a).data.drop i).take (pyLower q).data.length = (pyLower q).data

/-- Spec-side case-sensitive contiguous-substring containment, used to state
which lower-level error texts the orchestrator pattern-matches. -/
def specSubstr (q a : String) : Prop :=
  ∃ i, i ≤ a.data.length ∧ (a.data.drop i).take q.data.length = q.data

/- ===== Errors raised by the workflow stages ===== -/

inductive SubmitError where
  /-- raise Exception for course query with no matching course box -/
  | courseNotFound (query : String)
  /-- raise Exception for assignment query with no matching link or button -/
  | assignmentNotFound (query : String)
deriving Repr, DecidableEq

/- ===== Resolution stage (core.py lines 291-338) ===== -/

/-- The course loop: iterate `a.courseBox` cards in document order; a card
without an `h3.courseBox--shortname` child is skipped (`continue`); otherwise
the shortname is the child's inner text stripped, and the first card whose
shortname contains the query case-insensitively is selected. Each card is
modelled by its optional shortname inner text. -/
def findCourse (query : String) : List (Option String) → Option String
  | [] => none
  | none :: rest => findCourse query rest
  | some raw :: rest =>
    if labelMatches query (pyStrip raw) then some (pyStrip raw) else findCourse query rest

/-- Course resolution result: the matched shortname label, or the terminal
"Could not find course matching" error. -/
def resolveCourse (query : String) (cards : List (Option String)) :
    Except SubmitError String :=
  match findCourse query cards with
  | some label => .ok label
  | none => .error (.courseNotFound query)

/-- A label-scan loop over a list of elements given by their inner text:
strip each, select the first whose stripped text contains the query
case-insensitively. Used for both the assignment-link scan and the
submit-button fallback scan. -/
def findLabelLoop (query : String) : List String → Option String
  | [] => none
  | raw :: rest =>
    if labelMatches query (pyStrip raw) then some (pyStrip raw) else findLabelLoop query rest

/-- Assignment resolution: scan `a[href*="/assignments/"]` link labels first;
if none matches, fall back to scanning visible `button.js-submitAssignment`
labels; if both scans fail raise the terminal error. The boolean records
whether the match came from the button fallback. -/
def resolveAssignment (query : String) (links buttons : List String) :
    Except SubmitError (String × Bool) :=
  match findLabelLoop query links with
  | some label => .ok (label, false)
  | none =>
    match findLabelLoop query buttons with
    | some label => .ok (label, true)
    | none => .error (.assignmentNotFound query)

/-- Spec-side description of the resolution algorithm: the first candidate
(in document order) whose display label matches the query. -/
def specFirstMatch (query : String) (labels : List String) : Option String :=
  (labels.filter (fun l => labelMatches query l)).head?

/-- The course candidates actually compared: stripped shortnames of the cards
that have a shortname element, in document order. -/
def courseLabels (cards : List (Option String)) : List String :=
  cards.filterMap (fun c => c.map pyStrip)

/- ===== Grade-poll stage (`_wait_for_grade`, core.py lines 423-449) ===== -/

/-- max_attempts = 48 (4 minutes @ 5s interval). -/
def max_attempts : Nat := 48

/-- Acceptance test on the stripped grade text:
`if grade_text and not grade_text.startswith("-")` — Python string truthiness
is non-emptiness. -/
def gradeAccept (t : String) : Bool :=
  !t.data.isEmpty && !(pyStartsWith t "-")

inductive GradePollResult where
  /-- the loop broke with a final grade, logging the elapsed timer -/
  | gradeFound (text : String) (elapsedSeconds : Nat)
  /-- the for-else branch: timed out after max_attempts * 5 seconds -/
  | timedOut (elapsedSeconds : Nat)
deriving Repr, DecidableEq

/-- Seconds reported by a poll outcome. -/
def GradePollResult.elapsed : GradePollResult → Nat
  | .gradeFound _ e => e
  | .timedOut e => e

/-- Does attempt text `g` (the optional grade element's raw inner text)
qualify as a final grade after stripping? -/
def attemptQualifies (g : Option String) : Bool :=
  match g with
  | some raw => gradeAccept (pyStrip raw)
  | none => false

/-- The poll loop from attempt index `i` with `fuel` attempts remaining.
Each attempt reloads the page (recorded in the trace), queries the grade
element (`grades i`), and either breaks with the stripped text and the
elapsed timer (attempt `i` happens after `i` five-second sleeps) or sleeps
5s and continues. Exhausting all attempts yields the for-else timeout,
reported as `max_attempts * 5` seconds. -/
def pollFrom (grades : Nat → Option String) : Nat → Nat → GradePollResult × List Nat
  | _, 0 => (.timedOut (max_attempts * 5), [])
  | i, fuel + 1 =>
    match grades i with
    | some raw =>
      if gradeAccept (pyStrip raw) then (.gradeFound (pyStrip raw) (5 * i), [i])
      else
        let r := pollFrom grades (i + 1) fuel
        (r.1, i :: r.2)
    | none =>
      let r := pollFrom grades (i + 1) fuel
      (r.1, i :: r.2)

/-- `_wait_for_grade`: run the poll loop for `max_attempts` attempts starting
at attempt 0, returning the outcome and the trace of reload attempts. -/
def wait_for_grade (grades : Nat → Option String) : GradePollResult × List Nat :=
  pollFrom grades 0 max_attempts

/- ===== Session store (`SessionManager`, core.py lines 26-69) ===== -/

/-- The durable profile directory: `none` when the directory is absent,
`some authed` when it exists and holds cookies that do (`true`) or do not
(`false`) authenticate against the portal. -/
structure FS where
  profile : Option Bool
deriving Repr, DecidableEq

inductive ContextKind where
  | ephemeral
  | persistent
deriving Repr, DecidableEq

/-- A launched browser context: its persistence kind and whether the cookies
it starts with authenticate against the portal. -/
structure BrowserCtx where
  kind : ContextKind
  authed : Bool
deriving Repr, DecidableEq

structure SessionManager where
  fresh_login : Bool
deriving Repr, DecidableEq

/-- `SessionManager.__init__`: record the flag, and when `fresh_login` is set
and the session directory exists, `shutil.rmtree` it. -/
def SessionManager.init (fresh_login : Bool) (fs : FS) : SessionManager × FS :=
  if fresh_login && fs.profile.isSome then
    (⟨fresh_login⟩, ⟨none⟩)
  else
    (⟨fresh_login⟩, fs)

/-- `SessionManager.get_browser_context`: fresh login launches a regular
browser with a brand-new (cookie-less) context and no persistence; otherwise
the session directory is created if absent (`mkdir parents exist_ok`) and a
persistent context is launched against it, starting from whatever cookies the
directory holds. -/
def SessionManager.get_browser_context (sm : SessionManager) (fs : FS) :
    BrowserCtx × FS :=
  if sm.fresh_login then
    (⟨.ephemeral, false⟩, fs)
  else
    (⟨.persistent, fs.profile.getD false⟩, ⟨some (fs.profile.getD false)⟩)

/-- `SessionManager.cleanup_session`: delete the directory if it exists. -/
def SessionManager.cleanup_session (_fs : FS) : FS := ⟨none⟩

/-- The acquire operation of the spec: construct the manager (wiping the
profile when fresh) and open the context. -/
def acquire (fresh : Bool) (fs : FS) : BrowserCtx × FS :=
  let r := SessionManager.init fresh fs
  r.1.get_browser_context r.2

/-- Modelled from the spec: the authentication probe classifies a context
with no valid portal cookies as requiring login (`Unauthenticated`). -/
def probeRequiresLogin (c : BrowserCtx) : Bool := !c.authed

/- ===== Submitter constructor (core.py lines 135-140) ===== -/

structure GradescopeSubmitter where
  username : String
  password : String
  headless : Bool
  manual_login : Bool
  session_manager : SessionManager
deriving Repr, DecidableEq

/-- `GradescopeSubmitter.__init__`: stores the flags and constructs
`SessionManager(fresh_login or manual_login)` — manual login always uses a
fresh session. -/
def GradescopeSubmitter.init (username password : String)
    (headless fresh_login manual_login : Bool) (fs : FS) :
    GradescopeSubmitter × FS :=
  let r := SessionManager.init (fresh_login || manual_login) fs
  (⟨username, password, headless, manual_login, r.1⟩, r.2)

/- ===== Stage-error translation (core.py lines 386-398) ===== -/

/-- The orchestrator's except clause: pattern-match the stage error text and
re-raise either a friendlier interruption error, a friendlier connection-lost
error, or the original exception unchanged. -/
def translateStageError (e : String) : String :=
  if pyIn "Target page, context or browser has been closed" e then
    "❌ Submission interrupted - browser was closed"
  else if pyIn "Protocol error" e && pyIn "Target closed" e then
    "❌ Submission failed - browser connection lost"
  else e

/- ===== File-input wait handling (core.py lines 354-362) ===== -/

inductive FileWaitError where
  /-- the named precondition failure: assignment has no previous submissions -/
  | noPriorSubmission
  /-- `raise e`: the original wait failure, propagated unchanged -/
  | reraise (msg : String)
deriving Repr, DecidableEq

/-- The bounded (10s) wait for the file input to become attached: `none`
models the wait succeeding, `some e` models it raising with text `e`. A
strict-mode violation that resolved to 3 elements is reinterpreted as the
no-prior-submission precondition failure; every other failure is re-raised. -/
def handleFileInputWait (waitResult : Option String) : Except FileWaitError Unit :=
  match waitResult with
  | none => .ok ()
  | some e =>
    if pyIn "strict mode violation" e && pyIn "resolved to 3 elements" e then
      .error .noPriorSubmission
    else
      .error (.reraise e)

/- ===== Authentication probe (`is_logged_in`, core.py lines 72-123) ===== -/

inductive PyExc where
  /-- the except handler read `should_close_page` before any assignment -/
  | unboundLocalError
  /-- `page.close()` inside the except handler raised -/
  | closeError
deriving Repr, DecidableEq

/-- Failure-injection environment for one probe call. -/
structure ProbeEnv where
  /-- `context.new_page()` succeeds -/
  newPageOk : Bool
  /-- `page.goto(".../auth/saml/qut")` (and the settle wait) succeeds -/
  gotoOk : Bool
  /-- `page.close()` succeeds -/
  closeOk : Bool
  /-- main-document response URL captured by the response listener, if any -/
  redirectUrl : Option String
  /-- `page.url` after the settle wait -/
  currentUrl : String
deriving Repr, DecidableEq

inductive ProbeOutcome where
  | returned (loggedIn : Bool) (url : Option String)
  | raised (e : PyExc)
deriving Repr, DecidableEq

/-- The classification at the end of the probe (core.py lines 110-118). -/
def classifyProbe (redirectUrl : Option String) (currentUrl : String) :
    Bool × Option String :=
  if (match redirectUrl with
      | some r =>
        pyStartsWith r "https://www.gradescope.com.au"
          && !(pyStartsWith r "https://www.gradescope.com.au/auth")
      | none => false) then
    (true, redirectUrl)
  else if pyStartsWith currentUrl "https://www.gradescope.com.au"
      && !(pyStartsWith currentUrl "https://www.gradescope.com.au/auth")
      && !(pyIn "qut.edu.au" currentUrl) then
    (true, some currentUrl)
  else
    (false, none)

/-- `SessionManager.is_logged_in`, with the caller's `page` argument reduced
to whether a page was provided. Mirrors the control flow of the try/except:
when no page was provided and `context.new_page()` raises, the except handler
evaluates `should_close_page`, which was never assigned — an
UnboundLocalError escapes. When navigation raises after the page was created,
the handler closes the created page and returns `(False, None)`; if that
close itself raises, the exception escapes the handler. On the happy path the
created page is closed (a failure there reaches the same handler and its
second failing close) and the URL classification decides the result. -/
def is_logged_in (env : ProbeEnv) (pageProvided : Bool) : ProbeOutcome :=
  if !pageProvided && !env.newPageOk then
    .raised .unboundLocalError
  else
    let should_close_page := !pageProvided
    if !env.gotoOk then
      if should_close_page then
        if env.closeOk then .returned false none else .raised .closeError
      else
        .returned false none
    else
      if should_close_page && !env.closeOk then
        .raised .closeError
      else
        let r := classifyProbe env.redirectUrl env.currentUrl
        .returned r.1 r.2

/- ===== Orchestrator resource release (core.py lines 400-421) ===== -/

inductive CleanupEvent where
  | browserClose
  | contextClose
  | playwrightStop
deriving Repr, DecidableEq

/-- State of the driver objects when the finally block runs, plus injected
cleanup failures. `browserPresent` is true on the fresh-login path (a
separate top-level browser handle exists); otherwise the persistent context
is the only handle. -/
structure DriverState where
  browserPresent : Bool
  browserConnected : Bool
  contextHasPages : Bool
  /-- close raises with this text, when set -/
  closeFailMsg : Option String
  /-- `playwright.stop()` raises -/
  stopFails : Bool
deriving Repr, DecidableEq

/-- The close calls attempted by the finally block: close the browser only
when it is still connected (fresh path), else close the context only when it
still has pages. -/
def closeCalls (st : DriverState) : List CleanupEvent :=
  if st.browserPresent then
    if !st.browserConnected then [] else [.browserClose]
  else
    if !st.contextHasPages then [] else [.contextClose]

/-- The except handler around the close calls (core.py lines 412-415): both
the matched and the unmatched branch fall through to `pass`, so no close
error escapes. -/
def closeExcHandler (e : String) : Option String :=
  if !(pyIn "Target page, context or browser has been closed" e) then
    none
  else
    none

/-- The except handler around `playwright.stop()` (lines 419-421): `pass`. -/
def stopExcHandler : Option String := none

/-- Any exception escaping the finally block: a close failure only matters
when a close was actually attempted, and is then fed to its handler; a stop
failure is fed to its handler. -/
def finallyEscape (st : DriverState) : Option String :=
  let closeEsc :=
    match st.closeFailMsg with
    | some e => if (closeCalls st).isEmpty then none else closeExcHandler e
    | none => none
  match closeEsc with
  | some m => some m
  | none => if st.stopFails then stopExcHandler else none

/-- All cleanup calls attempted by the finally block: the guarded close,
then — in the nested finally — always exactly one `playwright.stop()`. -/
def finallyCalls (st : DriverState) : List CleanupEvent :=
  closeCalls st ++ [.playwrightStop]

/-- One run of `submit_to_gradescope` seen from the try/except/finally:
`body` is the outcome of the staged workflow (success value or raised error
text); the except clause translates the error text; the finally block runs
its cleanup, whose own failures would override the result only if they
escaped. Returns the run result and the trace of cleanup calls. -/
def submit_run (st : DriverState) (body : Except String (String × String)) :
    Except String (String × String) × List CleanupEvent :=
  let translated : Except String (String × String) :=
    match body with
    | .ok r => .ok r
    | .error e => .error (translateStageError e)
  let result : Except String (String × String) :=
    match finallyEscape st with
    | some m => .error m
    | none => translated
  (result, finallyCalls st)

/- ===== Helper lemmas ===== -/

theorem listStarts_iff (needle hay : List Char) :
    listStarts needle hay = true ↔ hay.take needle.length = needle := by
  induction needle generalizing hay with
  | nil => simp [listStarts]
  | cons a as ih =>
    cases hay with
    | nil => simp [listStarts]
    | cons b bs =>
      rw [listStarts]
      simp only [Bool.and_eq_true, beq_iff_eq, ih, List.length_cons,
        List.take_succ_cons, List.cons.injEq]
      constructor
      · rintro ⟨h1, h2⟩; exact ⟨h1.symm, h2⟩
      · rintro ⟨h1, h2⟩; exact ⟨h1.symm, h2⟩

theorem hasSubstr_iff (needle hay : List Char) :
    hasSubstr needle hay = true ↔
      ∃ i, i ≤ hay.length ∧ (hay.drop i).take needle.length = needle := by
  induction hay with
  | nil =>
    rw [hasSubstr]
    simp only [List.isEmpty_iff, List.length_nil, Nat.le_zero, List.drop_nil,
      List.take_nil]
    constructor
    · intro h; exact ⟨0, rfl, h.symm⟩
    · rintro ⟨i, _, h⟩; exact h.symm
  | cons c t ih =>
    rw [hasSubstr]
    simp only [Bool.or_eq_true, listStarts_iff, ih]
    constructor
    · rintro (h | ⟨i, hi, hh⟩)
      · exact ⟨0, by omega, by simpa using h⟩
      · exact ⟨i + 1, by simpa using Nat.succ_le_succ hi, by simpa using hh⟩
    · rintro ⟨i, hi, hh⟩
      cases i with
      | zero => exact Or.inl (by simpa using hh)
      | succ j =>
        exact Or.inr ⟨j, by simpa using Nat.le_of_succ_le_succ hi, by simpa using hh⟩

theorem pyIn_iff (needle hay : String) :
    pyIn needle hay = true ↔ specSubstr needle hay := by
  simp [pyIn, specSubstr, hasSubstr_iff]

theorem labelMatches_iff (query label : String) :
    labelMatches query label = true ↔ specSubstrCI query label := by
  simp [labelMatches, pyIn, specSubstrCI, hasSubstr_iff]

theorem findCourse_eq_specFirstMatch (query : String) (cards : List (Option String)) :
    findCourse query cards = specFirstMatch query (courseLabels cards) := by
  induction cards with
  | nil => rfl
  | cons c rest ih =>
    cases c with
    | none =>
      simpa [findCourse, courseLabels, List.filterMap_cons] using ih
    | some raw =>
      by_cases h : labelMatches query (pyStrip raw) = true
      · simp [findCourse, courseLabels, specFirstMatch, List.filterMap_cons,
          List.filter_cons, h]
      · rw [Bool.not_eq_true] at h
        simpa [findCourse, courseLabels, specFirstMatch, List.filterMap_cons,
          List.filter_cons, h] using ih

theorem findLabelLoop_eq_specFirstMatch (query : String) (ls : List String) :
    findLabelLoop query ls = specFirstMatch query (ls.map pyStrip) := by
  induction ls with
  | nil => rfl
  | cons raw rest ih =>
    by_cases h : labelMatches query (pyStrip raw) = true
    · simp [findLabelLoop, specFirstMatch, List.filter_cons, h]
    · rw [Bool.not_eq_true] at h
      simpa [findLabelLoop, specFirstMatch, List.filter_cons, h] using ih

theorem specFirstMatch_eq_none_iff (query : String) (labels : List String) :
    specFirstMatch query labels = none ↔
      ∀ l ∈ labels, labelMatches query l = false := by
  simp [specFirstMatch, List.head?_eq_none_iff, List.filter_eq_nil_iff]

theorem findLabelLoop_eq_none_iff (query : String) (ls : List String) :
    findLabelLoop query ls = none ↔
      ∀ l ∈ ls, labelMatches query (pyStrip l) = false := by
  rw [findLabelLoop_eq_specFirstMatch, specFirstMatch_eq_none_iff]
  simp

theorem resolveAssignment_eq_error_iff (query : String) (links buttons : List String) :
    resolveAssignment query links buttons = .error (.assignmentNotFound query) ↔
      (findLabelLoop query links = none ∧ findLabelLoop query buttons = none) := by
  cases h1 : findLabelLoop query links <;> cases h2 : findLabelLoop query buttons <;>
    simp [resolveAssignment, h1, h2]

/- ===== Claim theorems ===== -/

/-- C1: Course and assignment resolution iterate the candidate entries in
document order, match by case-insensitive substring containment of the query
in the entry's display label, and select the first matching entry; if no
candidate matches, the respective stage raises the terminal CourseNotFound /
AssignmentNotFound error; query "cab202" against labels CAB201, CAB202,
CAB203 resolves to CAB202, not CAB201. -/
theorem C1_first_match_resolution (query : String) (cards : List (Option String))
    (links buttons : List String) :
    (∀ l : String, labelMatches query l = true ↔ specSubstrCI query l)
    ∧ (resolveCourse query cards =
        match specFirstMatch query (courseLabels cards) with
        | some label => Except.ok label
        | none => Except.error (SubmitError.courseNotFound query))
    ∧ (resolveCourse query cards = .error (.courseNotFound query) ↔
        ∀ l ∈ courseLabels cards, labelMatches query l = false)
    ∧ (resolveAssignment query links buttons = .error (.assignmentNotFound query) ↔
        ((∀ l ∈ links, labelMatches query (pyStrip l) = false)
          ∧ (∀ b ∈ buttons, labelMatches query (pyStrip b) = false)))
    ∧ resolveCourse "cab202" [some "CAB201", some "CAB202", some "CAB203"]
        = .ok "CAB202" := by
  refine ⟨fun l => labelMatches_iff query l, ?_, ?_, ?_, by rfl⟩
  · rw [resolveCourse, findCourse_eq_specFirstMatch]
  · rw [resolveCourse, findCourse_eq_specFirstMatch,
      ← specFirstMatch_eq_none_iff]
    cases h : specFirstMatch query (courseLabels cards) <;> simp
  · rw [resolveAssignment_eq_error_iff, findLabelLoop_eq_none_iff,
      findLabelLoop_eq_none_iff]

/-- C7: If no assignment link label contains the query case-insensitively,
assignment resolution falls back to scanning visible submit-button labels by
the same rule; query "assignment 2" with no matching link but a button
labelled "Assignment 2 (Resubmission)" resolves via the button fallback;
only when both scans fail is AssignmentNotFound raised. -/
theorem C7_button_fallback (query : String) (links buttons : List String) :
    ((∀ l ∈ links, labelMatches query (pyStrip l) = false) →
      resolveAssignment query links buttons =
        (match findLabelLoop query buttons with
         | some label => Except.ok (label, true)
         | none => Except.error (SubmitError.assignmentNotFound query)))
    ∧ resolveAssignment "assignment 2" ["Quiz 1"] ["Assignment 2 (Resubmission)"]
        = .ok ("Assignment 2 (Resubmission)", true) := by
  constructor
  · intro h
    have hn : findLabelLoop query links = none :=
      (findLabelLoop_eq_none_iff query links).mpr h
    simp [resolveAssignment, hn]
  · rfl

theorem C7_witness :
    resolveAssignment "hw" ["Quiz 1"] ["hw 3"] = .ok ("hw 3", true) :=
  ((C7_button_fallback "hw" ["Quiz 1"] ["hw 3"]).1 (by decide)).trans (by rfl)

/-- C6 counterexample: a bounded wait failure whose text reports multiple
(two) unexpected matching elements is NOT reinterpreted as the
no-prior-submission precondition failure — it is re-raised unchanged, because
the code only matches the text "resolved to 3 elements". -/
theorem C6_counterexample :
    handleFileInputWait
        (some "Error: strict mode violation: locator resolved to 2 elements") =
      .error (.reraise "Error: strict mode violation: locator resolved to 2 elements")
    ∧ FileWaitError.reraise "Error: strict mode violation: locator resolved to 2 elements"
        ≠ FileWaitError.noPriorSubmission := by
  exact ⟨by rfl, by decide⟩

/-- C6 (amended): the file-input wait failure is reinterpreted as the
NoPriorSubmissionExists precondition failure exactly when its text contains
both "strict mode violation" and "resolved to 3 elements" (the specific
three-element strict-mode case); every other failure of this wait propagates
unchanged, and a successful wait is passed through. -/
theorem C6_reinterpretation (e : String) :
    (handleFileInputWait (some e) = .error .noPriorSubmission ↔
      (specSubstr "strict mode violation" e ∧ specSubstr "resolved to 3 elements" e))
    ∧ (¬ (specSubstr "strict mode violation" e ∧ specSubstr "resolved to 3 elements" e) →
        handleFileInputWait (some e) = .error (.reraise e))
    ∧ handleFileInputWait none = .ok () := by
  have h1 := pyIn_iff "strict mode violation" e
  have h2 := pyIn_iff "resolved to 3 elements" e
  by_cases c1 : pyIn "strict mode violation" e = true <;>
    by_cases c2 : pyIn "resolved to 3 elements" e = true <;>
      simp [handleFileInputWait, c1, c2, ← h1, ← h2]

theorem C6_witness :
    handleFileInputWait
        (some "strict mode violation: locator resolved to 3 elements") =
      .error .noPriorSubmission :=
  (C6_reinterpretation "strict mode violation: locator resolved to 3 elements").1.mpr
    ⟨(pyIn_iff _ _).mp (by decide), (pyIn_iff _ _).mp (by decide)⟩

/-- C9: When a stage fails with a lower-level transport error whose text
indicates the browser session was closed or the connection was lost, the
orchestrator pattern-matches the text and re-raises a distinct, friendlier
interruption error; all other stage exceptions are re-raised with their
original message. -/
theorem C9_error_translation (e : String) :
    (specSubstr "Target page, context or browser has been closed" e →
      translateStageError e = "❌ Submission interrupted - browser was closed")
    ∧ (¬ specSubstr "Target page, context or browser has been closed" e →
       specSubstr "Protocol error" e → specSubstr "Target closed" e →
      translateStageError e = "❌ Submission failed - browser connection lost")
    ∧ (¬ specSubstr "Target page, context or browser has been closed" e →
       ¬ (specSubstr "Protocol error" e ∧ specSubstr "Target closed" e) →
      translateStageError e = e) := by
  have h1 := pyIn_iff "Target page, context or browser has been closed" e
  have h2 := pyIn_iff "Protocol error" e
  have h3 := pyIn_iff "Target closed" e
  refine ⟨fun hs => ?_, fun hn hp ht => ?_, fun hn hnot => ?_⟩
  · simp [translateStageError, h1.mpr hs]
  · have c1 : pyIn "Target page, context or browser has been closed" e = false := by
      rw [← Bool.not_eq_true]
      exact fun hh => hn (h1.mp hh)
    simp [translateStageError, c1, h2.mpr hp, h3.mpr ht]
  · have c1 : pyIn "Target page, context or browser has been closed" e = false := by
      rw [← Bool.not_eq_true]
      exact fun hh => hn (h1.mp hh)
    have c2 : (pyIn "Protocol error" e && pyIn "Target closed" e) = false := by
      rw [← Bool.not_eq_true, Bool.and_eq_true]
      exact fun ⟨a, b⟩ => hnot ⟨h2.mp a, h3.mp b⟩
    simp [translateStageError, c1, c2]

theorem C9_witness :
    translateStageError "Page crashed: Target page, context or browser has been closed" =
      "❌ Submission interrupted - browser was closed" :=
  (C9_error_translation "Page crashed: Target page, context or browser has been closed").1
    ((pyIn_iff _ _).mp (by decide))

/-- C2: On every exit path of the workflow (normal completion, any stage
failure, or external interruption) the finally block runs exactly once:
`playwright.stop()` is attempted exactly once, at most one close call is
attempted, and exactly one close call is attempted whenever the session
handle is still live; close/stop errors are swallowed (nothing escapes the
finally block), so the run's result is exactly the translated body outcome
regardless of cleanup failures. -/
theorem C2_resource_release (st : DriverState) (body : Except String (String × String)) :
    ((submit_run st body).2 = finallyCalls st)
    ∧ ((finallyCalls st).count .playwrightStop = 1)
    ∧ ((finallyCalls st).count .browserClose + (finallyCalls st).count .contextClose ≤ 1)
    ∧ (st.browserPresent = true → st.browserConnected = true →
        (finallyCalls st).count .browserClose = 1)
    ∧ (st.browserPresent = false → st.contextHasPages = true →
        (finallyCalls st).count .contextClose = 1)
    ∧ finallyEscape st = none
    ∧ ((submit_run st body).1 =
        match body with
        | .ok r => Except.ok r
        | .error e => Except.error (translateStageError e)) := by
  obtain ⟨bp, bc, hp, cf, sf⟩ := st
  have hesc : finallyEscape ⟨bp, bc, hp, cf, sf⟩ = none := by
    cases cf <;> cases sf <;>
      simp [finallyEscape, closeExcHandler, stopExcHandler, closeCalls]
  refine ⟨rfl, ?_, ?_, ?_, ?_, hesc, ?_⟩
  · cases bp <;> cases bc <;> cases hp <;>
      simp [finallyCalls, closeCalls, List.count_cons, List.count_nil]
  · cases bp <;> cases bc <;> cases hp <;>
      simp [finallyCalls, closeCalls, List.count_cons, List.count_nil]
  · intro h1 h2
    subst h1; subst h2
    cases hp <;> simp [finallyCalls, closeCalls, List.count_cons, List.count_nil]
  · intro h1 h2
    subst h1; subst h2
    cases bc <;> simp [finallyCalls, closeCalls, List.count_cons, List.count_nil]
  · simp only [submit_run, hesc]

theorem C2_witness :
    finallyEscape ⟨true, true, false, some "Protocol error: Target closed", true⟩ = none
    ∧ (finallyCalls ⟨true, true, false, some "Protocol error: Target closed", true⟩).count
        CleanupEvent.browserClose = 1 :=
  ⟨(C2_resource_release ⟨true, true, false, some "Protocol error: Target closed", true⟩
      (.error "boom")).2.2.2.2.2.1,
   (C2_resource_release ⟨true, true, false, some "Protocol error: Target closed", true⟩
      (.error "boom")).2.2.2.1 rfl rfl⟩

/-- C3: the probe swallows a navigation failure occurring after page setup
and classifies it as logged-out (returns (False, None)); but when the probe
has to create its own page and that creation fails, the except handler reads
the never-assigned local should_close_page and an UnboundLocalError escapes —
the probe does throw, contradicting the never-throws claim. -/
theorem C3_probe_exception_paths :
    (is_logged_in ⟨true, false, true, none, ""⟩ false = .returned false none)
    ∧ (is_logged_in ⟨true, false, true, none, ""⟩ true = .returned false none)
    ∧ (is_logged_in ⟨false, true, true, none, ""⟩ false = .raised .unboundLocalError) := by
  decide

/-- C8: acquiring a session with fresh=true first deletes any existing
durable profile directory and then creates an ephemeral context holding no
portal cookies, so the next authentication probe requires login; acquiring
with fresh=false creates the durable profile directory if absent and opens a
persistent context against it. -/
theorem C8_acquire_semantics (fs : FS) :
    ((acquire true fs).1.kind = .ephemeral)
    ∧ ((acquire true fs).1.authed = false)
    ∧ (probeRequiresLogin (acquire true fs).1 = true)
    ∧ ((acquire true fs).2.profile = none)
    ∧ ((acquire false fs).1.kind = .persistent)
    ∧ ((acquire false fs).2.profile.isSome = true) := by
  obtain ⟨p⟩ := fs
  cases p with
  | none => decide
  | some b => cases b <;> decide

/-- C10: requesting manual-login mode always forces a fresh session: the
submitter constructor passes (fresh_login or manual_login) to the
SessionManager, so for every run with manual_login=true the durable profile
is wiped and the subsequently opened context is ephemeral and unauthenticated,
even when the caller did not set the fresh-login flag. -/
theorem C10_manual_forces_fresh (u p : String) (headless fresh manual : Bool) (fs : FS) :
    ((GradescopeSubmitter.init u p headless fresh manual fs).1.session_manager.fresh_login
        = (fresh || manual))
    ∧ ((GradescopeSubmitter.init u p headless fresh true fs).1.session_manager.fresh_login
        = true)
    ∧ ((GradescopeSubmitter.init u p headless fresh true fs).2.profile = none)
    ∧ (((GradescopeSubmitter.init u p headless fresh true fs).1.session_manager.get_browser_context
          (GradescopeSubmitter.init u p headless fresh true fs).2).1.kind = .ephemeral)
    ∧ (((GradescopeSubmitter.init u p headless fresh true fs).1.session_manager.get_browser_context
          (GradescopeSubmitter.init u p headless fresh true fs).2).1.authed = false) := by
  obtain ⟨pr⟩ := fs
  cases fresh <;> cases manual <;> cases pr <;>
    simp [GradescopeSubmitter.init, SessionManager.init, SessionManager.get_browser_context]

theorem pollFrom_trace_length (grades : Nat → Option String) (fuel i : Nat) :
    (pollFrom grades i fuel).2.length ≤ fuel := by
  induction fuel generalizing i with
  | zero => simp [pollFrom]
  | succ n ih =>
    cases h : grades i with
    | some raw =>
      by_cases hq : gradeAccept (pyStrip raw) = true
      · simp [pollFrom, h, hq]
      · rw [Bool.not_eq_true] at hq
        simp only [pollFrom, h, hq, if_neg Bool.false_ne_true, List.length_cons]
        exact Nat.succ_le_succ (ih (i + 1))
    | none =>
      simp only [pollFrom, h, List.length_cons]
      exact Nat.succ_le_succ (ih (i + 1))

theorem pollFrom_timeout (grades : Nat → Option String) (fuel i : Nat)
    (h : ∀ j, j < fuel → attemptQualifies (grades (i + j)) = false) :
    pollFrom grades i fuel = (.timedOut 240, List.range' i fuel) := by
  induction fuel generalizing i with
  | zero => simp [pollFrom, max_attempts]
  | succ n ih =>
    have h0 : attemptQualifies (grades i) = false := by
      simpa using h 0 (Nat.succ_pos n)
    have hrec : pollFrom grades (i + 1) n = (.timedOut 240, List.range' (i + 1) n) := by
      refine ih (i + 1) (fun j hj => ?_)
      have he : i + 1 + j = i + (j + 1) := by omega
      rw [he]
      exact h (j + 1) (Nat.succ_lt_succ hj)
    cases hg : grades i with
    | some raw =>
      have hq : gradeAccept (pyStrip raw) = false := by
        simpa [attemptQualifies, hg] using h0
      simp [pollFrom, hg, hq, hrec, List.range'_succ]
    | none =>
      simp [pollFrom, hg, hrec, List.range'_succ]


theorem pollFrom_elapsed_le (grades : Nat → Option String) (fuel i : Nat)
    (h : i + fuel ≤ 48) :
    (pollFrom grades i fuel).1.elapsed ≤ 240 := by
  induction fuel generalizing i with
  | zero => simp [pollFrom, max_attempts, GradePollResult.elapsed]
  | succ n ih =>
    cases hg : grades i with
    | some raw =>
      by_cases hq : gradeAccept (pyStrip raw) = true
      · simp only [pollFrom, hg, hq]
        simp [GradePollResult.elapsed]
        omega
      · rw [Bool.not_eq_true] at hq
        simp only [pollFrom, hg, hq, if_neg Bool.false_ne_true]
        exact ih (i + 1) (by omega)
    | none =>
      simp only [pollFrom, hg]
      exact ih (i + 1) (by omega)

theorem str_data_isEmpty_iff (s : String) : s.data.isEmpty = true ↔ s = "" := by
  rw [List.isEmpty_iff]
  exact ⟨fun h => String.ext h, fun h => by rw [h]⟩

theorem pyStartsWith_iff (s pre : String) :
    pyStartsWith s pre = true ↔ s.data.take pre.data.length = pre.data := by
  rw [pyStartsWith]
  exact listStarts_iff pre.data s.data

/-- C4: the grade-poll loop performs at most 48 reload attempts at 5-second
spacing, terminates with a reported elapsed time never exceeding the
4-minute deadline, and when no qualifying grade text appears in any attempt
it returns the TimedOut outcome reporting 240 seconds (after reloading on
all 48 attempts) rather than raising an error. -/
theorem C4_grade_poll_bounded (grades : Nat → Option String) :
    ((wait_for_grade grades).2.length ≤ 48)
    ∧ ((wait_for_grade grades).1.elapsed ≤ 240)
    ∧ ((∀ i, i < 48 → attemptQualifies (grades i) = false) →
        wait_for_grade grades = (.timedOut 240, List.range 48)) := by
  refine ⟨pollFrom_trace_length grades 48 0,
    pollFrom_elapsed_le grades 48 0 (by omega), fun h => ?_⟩
  have := pollFrom_timeout grades 48 0 (fun j hj => by simpa using h j hj)
  simpa [wait_for_grade, max_attempts, List.range_eq_range'] using this

theorem C4_witness :
    wait_for_grade (fun _ => (none : Option String)) = (.timedOut 240, List.range 48) :=
  (C4_grade_poll_bounded (fun _ => none)).2.2 (fun _ _ => rfl)

/-- C5: in each grade-poll iteration the stripped grade text is accepted as
the final grade exactly when it is non-empty and does not begin with the
pending marker "-"; on acceptance the loop stops immediately, reporting the
grade with the elapsed time; text "-" on attempts 1..47 and "87/100" on
attempt 48 yields the grade "87/100" after 235 seconds. -/
theorem C5_grade_acceptance (grades : Nat → Option String) (i fuel : Nat) (raw : String) :
    (gradeAccept (pyStrip raw) = true ↔
      (pyStrip raw ≠ "" ∧ (pyStrip raw).data.take 1 ≠ ['-']))
    ∧ (grades i = some raw → gradeAccept (pyStrip raw) = true →
        pollFrom grades i (fuel + 1) = (.gradeFound (pyStrip raw) (5 * i), [i]))
    ∧ (wait_for_grade (fun j => some (if j < 47 then "-" else "87/100"))
        = (.gradeFound "87/100" 235, List.range 48)) := by
  refine ⟨?_, fun hg hq => by simp [pollFrom, hg, hq], by rfl⟩
  rw [gradeAccept, Bool.and_eq_true, Bool.not_eq_true', Bool.not_eq_true']
  constructor
  · rintro ⟨h1, h2⟩
    constructor
    · intro he
      have hx := (str_data_isEmpty_iff (pyStrip raw)).mpr he
      rw [h1] at hx
      exact absurd hx Bool.false_ne_true
    · intro ht
      have hx : pyStartsWith (pyStrip raw) "-" = true :=
        (pyStartsWith_iff (pyStrip raw) "-").mpr (by simpa using ht)
      rw [h2] at hx
      exact absurd hx Bool.false_ne_true
  · rintro ⟨h1, h2⟩
    constructor
    · rw [← Bool.not_eq_true]
      exact fun habs => h1 ((str_data_isEmpty_iff (pyStrip raw)).mp habs)
    · rw [← Bool.not_eq_true]
      exact fun habs =>
        h2 (by simpa using (pyStartsWith_iff (pyStrip raw) "-").mp habs)

theorem C5_witness :
    pollFrom (fun _ => some " 87/100 ") 3 1 = (.gradeFound "87/100" 15, [3]) :=
  (C5_grade_acceptance (fun _ => some " 87/100 ") 3 0 " 87/100 ").2.1 rfl (by decide)

theorem C1_witness :
    resolveCourse "cab202" [some "CAB201", some "CAB202", some "CAB203"] = .ok "CAB202" :=
  (C1_first_match_resolution "cab202" [some "CAB201", some "CAB202", some "CAB203"]
    [] []).2.2.2.2

theorem C8_witness :
    (acquire true ⟨some true⟩).1.kind = .ephemeral
    ∧ (acquire true ⟨some true⟩).2.profile = none :=
  ⟨(C8_acquire_semantics ⟨some true⟩).1, (C8_acquire_semantics ⟨some true⟩).2.2.2.1⟩

theorem C10_witness :
    (GradescopeSubmitter.init "u" "p" false false true ⟨some true⟩).1.session_manager.fresh_login
      = true :=
  (C10_manual_forces_fresh "u" "p" false false true ⟨some true⟩).2.1
